import Mathlib

/-!
Verification development for the grapeddit Reddit client
(package `internal/redditclient`).

The definitions below are a shallow embedding of the Go source:

* `Client`, `NewClient`          — client.go `Client`, `NewClient`
* `updateRateLimit`              — client.go `updateRateLimit`
* `shuffleHeaders`               — client.go `shuffleHeaders` (with
  `rand.Shuffle` modelled by an explicit random stream)
* `readResponseBody`             — client.go `readResponseBody`
* `makeAPIRequest`               — client.go `makeAPIRequest`
* `handleRestrictedContent`      — client.go `handleRestrictedContent`
* `Authenticate`                 — auth.go `Authenticate`
* `GetSubreddit`, `GetPost`, `GetUser`, `Search`, `GetComments`,
  `GetMoreComments`              — the data operations (comments.go /
  subreddit.go variants, guarded by the `authenticated` flag)
* `decodeCommentChild`           — Go `encoding/json` unmarshalling of the
  `CommentChild` struct (comments model file)

JSON bodies are modelled by the inductive `Json`; raw HTTP bodies by
`RawContent` (valid JSON or non-JSON text); wire bodies by `WireBody`
(plain bytes, a well-formed gzip stream, or a corrupt gzip stream).
The HTTP transport is modelled as a list of `TransportEvent`s consumed
one per send; an exhausted list behaves as a transport failure.
-/

namespace Grapeddit

/-- JSON values.  Numbers are modelled as integers; no claim in this
development depends on fractional numeric values. -/
inductive Json : Type where
  | null : Json
  | bool (b : Bool) : Json
  | num (n : Int) : Json
  | str (s : String) : Json
  | arr (elems : List Json) : Json
  | obj (fields : List (String × Json)) : Json
  deriving Repr

/-- Last binding of a key in a JSON object, mirroring Go `encoding/json`,
where a later duplicate key overwrites an earlier one. -/
def lookupLast (fields : List (String × Json)) (key : String) : Option Json :=
  (fields.filter (fun p => p.1 = key)).getLast?.map Prod.snd

/-- Go `encoding/json` semantics for decoding a JSON value into a field of
type `string`: absent and `null` leave the zero value `""`; a JSON string
is taken verbatim; any other shape is an unmarshalling error. -/
def goStringField (fields : List (String × Json)) (key : String) : Option String :=
  match lookupLast fields key with
  | none => some ""
  | some Json.null => some ""
  | some (Json.str s) => some s
  | some _ => none

/-- Go `encoding/json` semantics for decoding a JSON value into a field of
type `int`. -/
def goIntField (fields : List (String × Json)) (key : String) : Option Int :=
  match lookupLast fields key with
  | none => some 0
  | some Json.null => some 0
  | some (Json.num n) => some n
  | some _ => none

/-- Logical content of an HTTP body: a parsed JSON value, or bytes that are
not valid JSON. -/
inductive RawContent : Type where
  | json (j : Json) : RawContent
  | text (s : String) : RawContent
  deriving Repr

/-- Body of a response as it appears on the wire.  A `gzip c raw` body is a
well-formed gzip stream whose compressed bytes are `raw` and whose
decompressed content is `c`; `gzipCorrupt raw` is a stream that gzip
decoding rejects. -/
inductive WireBody : Type where
  | plain (c : RawContent) : WireBody
  | gzip (c : RawContent) (raw : String) : WireBody
  | gzipCorrupt (raw : String) : WireBody
  deriving Repr

/-- Raw bytes of a wire body, as read without gzip decoding. -/
def rawOf : WireBody → RawContent
  | WireBody.plain c => c
  | WireBody.gzip _ raw => RawContent.text raw
  | WireBody.gzipCorrupt raw => RawContent.text raw

/-- An HTTP response as delivered by the transport. -/
structure HttpResp : Type where
  status : Nat
  headers : List (String × String)
  body : WireBody
  deriving Repr

/-- One transport interaction: `http.Client.Do` either returns a response
or fails (network error, cancellation, exceeded deadline). -/
inductive TransportEvent : Type where
  | ok (resp : HttpResp) : TransportEvent
  | err (msg : String) : TransportEvent
  deriving Repr

/-- A request as handed to the transport.  `headers` records the header
pairs in the order they were applied to the request object. -/
structure Request : Type where
  method : String
  url : String
  headers : List (String × String)
  body : Json := Json.null
  deriving Repr

/-- Client state, client.go `Client` together with the `authenticated`
flag of the current model files.  The lock and the pooled gzip reader
carry no observable pipeline state and are not modelled. -/
structure Client : Type where
  authenticated : Bool
  accessToken : String
  loid : String
  session : String
  deviceID : String
  userAgent : String
  rateLimit : Int
  deriving Repr

/-- NewClient: fresh client with the assumed full rate limit of 100 and no
credentials.  The device id and the user-agent string are external random
inputs (uuid / spoof-list choice) and are taken as parameters. -/
def NewClient (deviceID userAgent : String) : Client :=
  { authenticated := false
    accessToken := ""
    loid := ""
    session := ""
    deviceID := deviceID
    userAgent := userAgent
    rateLimit := 100 }

/-- First header value for a key, mirroring `http.Header.Get` (the header
maps built here use each key at most once). -/
def headerGet (headers : List (String × String)) (key : String) : String :=
  ((headers.find? (fun p => p.1 = key)).map Prod.snd).getD ""

/-- Replace the value of a key, or append it, mirroring `http.Header.Set`. -/
def headerSet (headers : List (String × String)) (key value : String) :
    List (String × String) :=
  if headers.any (fun p => p.1 = key) then
    headers.map (fun p => if p.1 = key then (key, value) else p)
  else
    headers ++ [(key, value)]

/-- Substring test mirroring Go `strings.Contains` on the inputs used here
(the needle `"gzip"` is never empty). -/
def containsSubstr (s pat : String) : Bool :=
  s.toList.tails.any (fun t => pat.toList.isPrefixOf t)

/-- Selection shuffle modelling the library call `rand.Shuffle`: each step
consumes one number from the random stream `rs` and moves the selected
element to the front of the remaining segment.  Every permutation of the
input is reachable by a suitable stream; an exhausted stream leaves the
remaining elements in place. -/
def shuffleSelect {α : Type} : List Nat → List α → List α
  | _, [] => []
  | [], l => l
  | r :: rs, l =>
    match l[r % l.length]? with
    | some a => a :: shuffleSelect rs (l.eraseIdx (r % l.length))
    | none => l

/-- shuffleHeaders, client.go: collect the keys of the header map, shuffle
them with the random stream, and apply each `(key, value)` pair to the
request in the shuffled order.  The returned list is the applied order. -/
def shuffleHeaders (rs : List Nat) (headers : List (String × String)) :
    List (String × String) :=
  (shuffleSelect rs (headers.map Prod.fst)).map
    (fun k => (k, (headers.lookup k).getD ""))

/-- Fold a list of header applications through `http.Header.Set`. -/
def applyHeaders (pairs : List (String × String)) : List (String × String) :=
  pairs.foldl (fun acc p => headerSet acc p.1 p.2) []

/-- Alphabet of standard base64. -/
def base64Chars : List Char :=
  "ABCDEFGHIJKLMNOPQRSTUVWXYZabcdefghijklmnopqrstuvwxyz0123456789+/".toList

/-- Encode a byte list in standard base64 with padding, mirroring
`base64.StdEncoding.EncodeToString`. -/
def b64EncodeBytes : List Nat → List Char
  | b1 :: b2 :: b3 :: rest =>
    let n := b1 * 65536 + b2 * 256 + b3
    [base64Chars.getD (n / 262144) 'A',
     base64Chars.getD (n / 4096 % 64) 'A',
     base64Chars.getD (n / 64 % 64) 'A',
     base64Chars.getD (n % 64) 'A'] ++ b64EncodeBytes rest
  | [b1, b2] =>
    let n := b1 * 65536 + b2 * 256
    [base64Chars.getD (n / 262144) 'A',
     base64Chars.getD (n / 4096 % 64) 'A',
     base64Chars.getD (n / 64 % 64) 'A', '=']
  | [b1] =>
    let n := b1 * 65536
    [base64Chars.getD (n / 262144) 'A',
     base64Chars.getD (n / 4096 % 64) 'A', '=', '=']
  | [] => []

/-- Standard base64 of a UTF-8 string. -/
def base64StdEncode (s : String) : String :=
  String.mk (b64EncodeBytes (s.toUTF8.toList.map UInt8.toNat))

/-- OAuth client id of the spoofed Android app, client.go. -/
def ANDROID_CLIENT_ID : String := "ohXpoqrZYub1kg"

/-- Consent cookie sent on the gated/quarantined retry, client.go
`CONTENT_WARNING_ACCEPT_COOKIE`. -/
def CONTENT_WARNING_ACCEPT_COOKIE : String :=
  "_options=%7B%22pref_quarantine_optin%22%3A%20true%2C%20%22pref_gated_sr_optin%22%3A%20true%7D"

/-- Header map of the authentication request, auth.go.  The `x-reddit-qos`
value is produced from `rand.Float64` and is taken as the parameter
`qos`. -/
def authHeaders (c : Client) (qos : String) : List (String × String) :=
  [("Authorization", "Basic " ++ base64StdEncode (ANDROID_CLIENT_ID ++ ":")),
   ("User-Agent", c.userAgent),
   ("X-Reddit-Device-Id", c.deviceID),
   ("client-vendor-id", c.deviceID),
   ("Content-Type", "application/json; charset=UTF-8"),
   ("x-reddit-retry", "algo=no-retries"),
   ("x-reddit-compression", "1"),
   ("x-reddit-qos", qos),
   ("x-reddit-media-codecs",
    "available-codecs=video/avc, video/hevc, video/x-vnd.on2.vp9")]

/-- Header map of a data request, client.go `makeAPIRequest`. -/
def dataHeaders (c : Client) : List (String × String) :=
  [("Authorization", "Bearer " ++ c.accessToken),
   ("User-Agent", c.userAgent),
   ("x-reddit-loid", c.loid),
   ("x-reddit-session", c.session),
   ("Accept-Encoding", "gzip")]

/-- Query parameters, modelling `url.Values` (a map from key to a list of
values) as an association list. -/
abbrev Params : Type := List (String × List String)

/-- url.Values.Set: replace all values of a key with a single value. -/
def paramsSet (ps : Params) (key value : String) : Params :=
  if ps.any (fun p => p.1 = key) then
    ps.map (fun p => if p.1 = key then (key, [value]) else p)
  else
    ps ++ [(key, [value])]

/-- url.Values.Encode: keys in sorted order, each value in order.  Query
escaping is the identity on every string this development feeds in (no
character of them needs escaping). -/
def paramsEncode (ps : Params) : String :=
  let sorted := List.mergeSort ps (fun a b => a.1 ≤ b.1)
  String.intercalate "&"
    (sorted.flatMap (fun p => p.2.map (fun v => p.1 ++ "=" ++ v)))

/-- Typed classification of the error values produced by the client,
following the spec taxonomy; each constructor corresponds to one
`errors.New` / `fmt.Errorf` site of the source. -/
inductive ApiError : Type where
  | errNotAuthenticated : ApiError
  | notAuthPlain : ApiError
  | transportErr (msg : String) : ApiError
  | decodeErr (msg : String) : ApiError
  | apiStatus (status : Nat) (body : RawContent) : ApiError
  | restricted (reason msg : String) : ApiError
  | authErr (msg : String) : ApiError
  deriving Repr

/-- readResponseBody, client.go: gzip-decode the body when the
`Content-Encoding` header contains `"gzip"`, otherwise read it raw.
`none` is the read/decompression failure path. -/
def readResponseBody (resp : HttpResp) : Option RawContent :=
  if containsSubstr (headerGet resp.headers "Content-Encoding") "gzip" then
    match resp.body with
    | WireBody.gzip c _ => some c
    | WireBody.plain _ => none
    | WireBody.gzipCorrupt _ => none
  else
    some (rawOf resp.body)

/-- Go `json.Unmarshal(body, &errorResp)` for `ErrorResponse` (a struct
with the single string field `reason`): `some r` is a nil-error decode
leaving `Reason = r`; `none` is a decode error. -/
def unmarshalErrorResp : Json → Option String
  | Json.null => some ""
  | Json.obj fields => goStringField fields "reason"
  | _ => none

/-- Restriction reason of a body, as tested in client.go `makeAPIRequest`:
the unmarshal must succeed and the reason must be non-empty. -/
def restrictionReason : RawContent → Option String
  | RawContent.json j =>
    match unmarshalErrorResp j with
    | some r => if r = "" then none else some r
    | none => none
  | RawContent.text _ => none

/-- updateRateLimit, client.go: decrement the budget by one and reset it to
the assumed full value when it falls below the threshold 10. -/
def updateRateLimit (r : Int) : Int :=
  if r - 1 < 10 then 100 else r - 1

/-- Rate-limit bookkeeping step of `makeAPIRequest`: `updateRateLimit` runs
only when the response carries an `x-ratelimit-remaining` header. -/
def recordRate (c : Client) (resp : HttpResp) : Client :=
  if headerGet resp.headers "x-ratelimit-remaining" ≠ "" then
    { c with rateLimit := updateRateLimit c.rateLimit }
  else c

/-- Outcome of one data-operation call: the requests handed to the
transport in order, the result, and the client state afterwards. -/
structure FetchResult : Type where
  sent : List Request
  outcome : Except ApiError RawContent
  client : Client
  deriving Repr

/-- Data request built by `makeAPIRequest` before sending. -/
def buildDataRequest (c : Client) (rs : List Nat) (endpoint : String)
    (params : Params) : Request :=
  { method := "GET"
    url := "https://oauth.reddit.com" ++ endpoint ++ "?"
      ++ paramsEncode (paramsSet params "raw_json" "1")
    headers := applyHeaders (shuffleHeaders rs (dataHeaders c)) }

/-- Retry request of the restriction handler: the original request with the
consent cookie header set. -/
def addConsentCookie (req : Request) : Request :=
  { req with headers :=
      headerSet req.headers "Cookie" CONTENT_WARNING_ACCEPT_COOKIE }

/-- handleRestrictedContent, client.go: `gated`/`quarantined` resend the
original request once with the consent cookie and return that body after
optional decompression, with no status or restriction check on it;
`private` and every other reason fail without any retry. -/
def handleRestrictedContent (c : Client) (req : Request) (reason : String)
    (transport : List TransportEvent) : FetchResult :=
  if reason = "gated" ∨ reason = "quarantined" then
    let req2 := addConsentCookie req
    match transport with
    | TransportEvent.ok resp :: _ =>
      match readResponseBody resp with
      | some body => ⟨[req, req2], Except.ok body, c⟩
      | none =>
        ⟨[req, req2], Except.error (ApiError.decodeErr "failed to read retry response"), c⟩
    | _ =>
      ⟨[req, req2], Except.error (ApiError.transportErr "retry request failed"), c⟩
  else if reason = "private" then
    ⟨[req], Except.error
      (ApiError.restricted "private" "content is private and cannot be accessed"), c⟩
  else
    ⟨[req], Except.error
      (ApiError.restricted reason ("unknown content restriction: " ++ reason)), c⟩

/-- makeAPIRequest, client.go: access-token gate, request construction,
send, rate-limit bookkeeping, body read/decompression, status check,
restriction check, and the restriction handler. -/
def makeAPIRequest (c : Client) (rs : List Nat) (endpoint : String)
    (params : Params) (transport : List TransportEvent) : FetchResult :=
  if c.accessToken = "" then
    ⟨[], Except.error ApiError.notAuthPlain, c⟩
  else
    let req := buildDataRequest c rs endpoint params
    match transport with
    | TransportEvent.ok resp :: rest =>
      let c1 := recordRate c resp
      match readResponseBody resp with
      | none =>
        ⟨[req], Except.error (ApiError.decodeErr "failed to read response"), c1⟩
      | some body =>
        if resp.status ≠ 200 then
          ⟨[req], Except.error (ApiError.apiStatus resp.status body), c1⟩
        else
          match restrictionReason body with
          | some r => handleRestrictedContent c1 req r rest
          | none => ⟨[req], Except.ok body, c1⟩
    | _ =>
      ⟨[req], Except.error (ApiError.transportErr "API request failed"), c⟩

/-- GetSubreddit: authentication-flag gate, then the pipeline on the
subreddit listing endpoint.  The endpoint-specific unmarshalling of a
successful body is modelled separately where a claim needs it; it issues
no request and cannot alter the gate behaviour proved here. -/
def GetSubreddit (c : Client) (rs : List Nat) (subreddit sort : String)
    (transport : List TransportEvent) : FetchResult :=
  if ¬ c.authenticated then ⟨[], Except.error ApiError.errNotAuthenticated, c⟩
  else makeAPIRequest c rs ("/r/" ++ subreddit ++ "/" ++ sort ++ ".json") [] transport

/-- GetPost: authentication-flag gate, then the pipeline on the post
endpoint. -/
def GetPost (c : Client) (rs : List Nat) (subreddit postID : String)
    (transport : List TransportEvent) : FetchResult :=
  if ¬ c.authenticated then ⟨[], Except.error ApiError.errNotAuthenticated, c⟩
  else
    makeAPIRequest c rs ("/r/" ++ subreddit ++ "/comments/" ++ postID ++ ".json")
      [] transport

/-- GetUser: authentication-flag gate, then the pipeline on the user-about
endpoint. -/
def GetUser (c : Client) (rs : List Nat) (username : String)
    (transport : List TransportEvent) : FetchResult :=
  if ¬ c.authenticated then ⟨[], Except.error ApiError.errNotAuthenticated, c⟩
  else makeAPIRequest c rs ("/user/" ++ username ++ "/about.json") [] transport

/-- Search: authentication-flag gate, then the pipeline on the search
endpoint with the `q`, `sort` and `t` parameters. -/
def Search (c : Client) (rs : List Nat) (query sort timeframe : String)
    (transport : List TransportEvent) : FetchResult :=
  if ¬ c.authenticated then ⟨[], Except.error ApiError.errNotAuthenticated, c⟩
  else
    makeAPIRequest c rs "/search.json"
      [("q", [query]), ("sort", [sort]), ("t", [timeframe])] transport

/-- GetComments: authentication-flag gate, then the pipeline on the
comments endpoint, with an optional `sort` parameter. -/
def GetComments (c : Client) (rs : List Nat) (subreddit postID sort : String)
    (transport : List TransportEvent) : FetchResult :=
  if ¬ c.authenticated then ⟨[], Except.error ApiError.errNotAuthenticated, c⟩
  else
    makeAPIRequest c rs ("/r/" ++ subreddit ++ "/comments/" ++ postID ++ ".json")
      (if sort ≠ "" then [("sort", [sort])] else []) transport

/-- GetMoreComments: authentication-flag gate, then the pipeline on the
morechildren endpoint, with `api_type=json`, the link id, and one repeated
`children` parameter per requested id. -/
def GetMoreComments (c : Client) (rs : List Nat) (linkID : String)
    (children : List String) (transport : List TransportEvent) : FetchResult :=
  if ¬ c.authenticated then ⟨[], Except.error ApiError.errNotAuthenticated, c⟩
  else
    makeAPIRequest c rs "/api/morechildren.json"
      ([("api_type", ["json"]), ("link_id", [linkID])]
        ++ if children ≠ [] then [("children", children)] else []) transport

/-- Enumeration of the six data operations, for claims quantifying over all
of them. -/
inductive Op : Type where
  | getSubreddit (subreddit sort : String) : Op
  | getPost (subreddit postID : String) : Op
  | getUser (username : String) : Op
  | search (query sort timeframe : String) : Op
  | getComments (subreddit postID sort : String) : Op
  | getMoreComments (linkID : String) (children : List String) : Op

/-- Dispatch an operation to its implementation. -/
def runOp (c : Client) (rs : List Nat) (op : Op)
    (transport : List TransportEvent) : FetchResult :=
  match op with
  | Op.getSubreddit a b => GetSubreddit c rs a b transport
  | Op.getPost a b => GetPost c rs a b transport
  | Op.getUser a => GetUser c rs a transport
  | Op.search a b d => Search c rs a b d transport
  | Op.getComments a b d => GetComments c rs a b d transport
  | Op.getMoreComments a b => GetMoreComments c rs a b transport

/-- OAuthResponse, the decoded OAuth token body. -/
structure OAuthResponse : Type where
  accessToken : String
  tokenType : String
  expiresIn : Int
  scope : List String
  deriving Repr

/-- Go decoding of a JSON array into `[]string`: every element must be a
string (or null, giving the zero value). -/
def goStringList (elems : List Json) : Option (List String) :=
  elems.mapM (fun j =>
    match j with
    | Json.str s => some s
    | Json.null => some ""
    | _ => none)

/-- Go `json.Decoder.Decode` of a body into `OAuthResponse`. -/
def decodeOAuth : RawContent → Option OAuthResponse
  | RawContent.text _ => none
  | RawContent.json j =>
    match j with
    | Json.null => some ⟨"", "", 0, []⟩
    | Json.obj fields => do
      let tok ← goStringField fields "access_token"
      let ty ← goStringField fields "token_type"
      let ex ← goIntField fields "expires_in"
      let sc ←
        match lookupLast fields "scope" with
        | none => some []
        | some Json.null => some []
        | some (Json.arr elems) => goStringList elems
        | some _ => none
      some ⟨tok, ty, ex, sc⟩
    | _ => none

/-- Outcome of an authentication call. -/
structure AuthResult : Type where
  sent : List Request
  outcome : Except ApiError Unit
  client : Client
  deriving Repr

/-- Authentication request built by `Authenticate` before sending. -/
def authRequest (c : Client) (rs : List Nat) (qos : String) : Request :=
  { method := "POST"
    url := "https://www.reddit.com/auth/v2/oauth/access-token/loid"
    headers := applyHeaders (shuffleHeaders rs (authHeaders c qos))
    body := Json.obj [("scopes",
      Json.arr [Json.str "*", Json.str "email", Json.str "pii"])] }

/-- Authenticate, auth.go: build the spoofed OAuth request, send it, fail
on transport error or non-200 status without touching the session state,
otherwise decode the OAuth body and store the token and the
`x-reddit-loid` / `x-reddit-session` response headers.  Setting the
`authenticated` flag on success is pinned by the current test suite (the
updated Authenticate source itself is not in the dump). -/
def Authenticate (c : Client) (rs : List Nat) (qos : String)
    (transport : List TransportEvent) : AuthResult :=
  let req := authRequest c rs qos
  match transport with
  | TransportEvent.ok resp :: _ =>
    if resp.status ≠ 200 then
      ⟨[req], Except.error (ApiError.authErr "authentication failed with status"), c⟩
    else
      match decodeOAuth (rawOf resp.body) with
      | none =>
        ⟨[req], Except.error (ApiError.decodeErr "failed to decode OAuth response"), c⟩
      | some o =>
        ⟨[req], Except.ok (),
          { c with
            authenticated := true
            accessToken := o.accessToken
            loid := headerGet resp.headers "x-reddit-loid"
            session := headerGet resp.headers "x-reddit-session" }⟩
  | _ =>
    ⟨[req], Except.error (ApiError.authErr "authentication request failed"), c⟩

/-- CommentChild, comments model file: a child of a comment listing as the
Go struct declares it — `Kind` is a typed string, `Data` is `interface` /
dynamic, so decoding keeps the raw JSON value whatever the kind is. -/
structure CommentChild : Type where
  kind : String
  data : Json
  deriving Repr

/-- Go `encoding/json` unmarshalling of a JSON value into `CommentChild`:
the `kind` field must decode as a string; the `data` field, of dynamic
type, is retained verbatim for every kind.  No dispatch on `kind` into
typed Comment / MoreComments structures occurs anywhere in the source. -/
def decodeCommentChild : Json → Option CommentChild
  | Json.null => some ⟨"", Json.null⟩
  | Json.obj fields => do
    let k ← goStringField fields "kind"
    some ⟨k, (lookupLast fields "data").getD Json.null⟩
  | _ => none

/-- CommentNode as the spec's words describe it (§3, §4.7): a tagged union
of a typed Comment, with recursively decoded replies, and a typed
MorePlaceholder. -/
inductive CommentNodeSpec : Type where
  | comment (id author body : String) (score created : Int) (parentId : String)
      (replies : List CommentNodeSpec) : CommentNodeSpec
  | more (count : Int) (id parentId : String) (children : List String) :
      CommentNodeSpec

/-- Modelled from the spec: the decoder §4.7 describes, for comparison with
the source's `decodeCommentChild` — dispatch on `kind`, with `t1` decoding
`data` into a typed Comment whose `replies` is the empty-string sentinel or
a nested listing decoded recursively, and `more` decoding `data` into a
typed MorePlaceholder.  `fuel` bounds the recursion depth; every theorem
below is insensitive to its value beyond the input's depth. -/
def decodeCommentNodeSpec : Nat → Json → Option CommentNodeSpec
  | 0, _ => none
  | _ + 1, Json.null => none
  | fuel + 1, Json.obj fields => do
    let kind ← goStringField fields "kind"
    match lookupLast fields "data" with
    | some (Json.obj dfields) =>
      if kind = "t1" then do
        let id ← goStringField dfields "id"
        let author ← goStringField dfields "author"
        let body ← goStringField dfields "body"
        let score ← goIntField dfields "score"
        let created ← goIntField dfields "created_utc"
        let parentId ← goStringField dfields "parent_id"
        let replies ←
          match lookupLast dfields "replies" with
          | some (Json.str "") => some []
          | none => some []
          | some (Json.obj lfields) =>
            match lookupLast lfields "data" with
            | some (Json.obj ldata) =>
              match lookupLast ldata "children" with
              | some (Json.arr elems) => elems.mapM (decodeCommentNodeSpec fuel)
              | _ => none
            | _ => none
          | some _ => none
        some (CommentNodeSpec.comment id author body score created parentId replies)
      else if kind = "more" then do
        let count ← goIntField dfields "count"
        let id ← goStringField dfields "id"
        let parentId ← goStringField dfields "parent_id"
        let children ←
          match lookupLast dfields "children" with
          | some (Json.arr elems) => goStringList elems
          | none => some []
          | some _ => none
        some (CommentNodeSpec.more count id parentId children)
      else none
    | _ => none
  | _ + 1, _ => none

/-- Concrete authenticated client used by witness instances. -/
def clientC : Client :=
  { authenticated := true
    accessToken := "tok"
    loid := "lo"
    session := "se"
    deviceID := "dev"
    userAgent := "ua"
    rateLimit := 100 }

/-- Concrete 200 response whose body is a restriction signal. -/
def respReasonC (r : String) : HttpResp :=
  { status := 200
    headers := []
    body := WireBody.plain (RawContent.json (Json.obj [("reason", Json.str r)])) }

/-- Concrete ordinary listing body. -/
def listingBodyC : RawContent :=
  RawContent.json (Json.obj [("kind", Json.str "Listing")])

/-- Concrete 200 response with an ordinary body. -/
def respOkC : HttpResp :=
  { status := 200, headers := [], body := WireBody.plain listingBodyC }

/-- Concrete 503 response with an ordinary body. -/
def resp503C : HttpResp :=
  { status := 503, headers := [], body := WireBody.plain listingBodyC }

/-! Helper lemmas about shuffling and header maps. -/

/-- Moving an indexed element to the front of the rest is a permutation. -/
theorem cons_eraseIdx_perm {α : Type} :
    ∀ (l : List α) (j : Nat) (a : α), l[j]? = some a →
      (a :: l.eraseIdx j).Perm l := by
  intro l
  induction l with
  | nil => intro j a h; simp at h
  | cons x xs ih =>
    intro j a h
    cases j with
    | zero =>
      simp only [List.getElem?_cons_zero, Option.some.injEq] at h
      subst h
      simp [List.eraseIdx]
    | succ j =>
      simp only [List.getElem?_cons_succ] at h
      simpa [List.eraseIdx] using
        ((List.Perm.swap x a _).trans ((ih j a h).cons x))

/-- The selection shuffle permutes its input for every random stream. -/
theorem shuffleSelect_perm {α : Type} :
    ∀ (rs : List Nat) (l : List α), (shuffleSelect rs l).Perm l := by
  intro rs
  induction rs with
  | nil => intro l; cases l <;> simp [shuffleSelect]
  | cons r rs ih =>
    intro l
    cases l with
    | nil => simp [shuffleSelect]
    | cons x xs =>
      show (match (x :: xs)[r % (x :: xs).length]? with
        | some a => a :: shuffleSelect rs ((x :: xs).eraseIdx (r % (x :: xs).length))
        | none => x :: xs).Perm (x :: xs)
      rcases h : (x :: xs)[r % (x :: xs).length]? with _ | a
      · simp
      · simpa using ((ih _).cons a).trans (cons_eraseIdx_perm _ _ _ h)

/-- With pairwise distinct keys, lookup of a member's key returns its
value. -/
theorem lookup_self :
    ∀ {l : List (String × String)}, (l.map Prod.fst).Nodup →
      ∀ p ∈ l, l.lookup p.1 = some p.2 := by
  intro l
  induction l with
  | nil => intro _ p hp; simp at hp
  | cons q t ih =>
    intro hnd p hp
    obtain ⟨k, v⟩ := q
    simp only [List.map_cons, List.nodup_cons] at hnd
    rcases List.mem_cons.mp hp with hp | hp
    · subst hp; simp [List.lookup]
    · have hk : p.1 ≠ k := by
        intro he
        exact hnd.1 (he ▸ (List.mem_map_of_mem Prod.fst hp))
      simp [List.lookup, beq_false_of_ne hk, ih hnd.2 p hp]

/-- Rebuilding each pair from its key is the identity map on a header list
with distinct keys. -/
theorem map_lookup_self :
    ∀ {l : List (String × String)}, (l.map Prod.fst).Nodup →
      l.map (fun p => (p.1, (l.lookup p.1).getD "")) = l := by
  intro l hnd
  have point : ∀ p ∈ l, (p.1, (l.lookup p.1).getD "") = p := by
    intro p hp
    simp [lookup_self hnd p hp]
  exact List.map_congr_left point |>.trans (List.map_id l)

/-- Shuffling a header list with distinct keys permutes its pairs. -/
theorem shuffleHeaders_perm (rs : List Nat) (l : List (String × String))
    (hnd : (l.map Prod.fst).Nodup) : (shuffleHeaders rs l).Perm l := by
  unfold shuffleHeaders
  have h1 := (shuffleSelect_perm rs (l.map Prod.fst)).map
    (fun k => (k, (l.lookup k).getD ""))
  have h2 : (l.map Prod.fst).map (fun k => (k, (l.lookup k).getD "")) = l := by
    rw [List.map_map]
    exact map_lookup_self hnd
  exact h1.trans (by rw [h2])

/-- An exhausted random stream leaves the key order unchanged. -/
theorem shuffleSelect_nil {α : Type} (l : List α) :
    shuffleSelect ([] : List Nat) l = l := by
  cases l <;> rfl

/-- The rate budget never drops below the threshold in one step. -/
theorem updateRateLimit_ge (r : Int) (h : 10 ≤ r) :
    10 ≤ updateRateLimit r := by
  unfold updateRateLimit
  split <;> omega

/-! Claim theorems. -/

/-- C1: every data operation called on a client that has not authenticated
fails with the `ErrNotAuthenticated` sentinel and hands zero requests to
the transport, leaving the client untouched; and independently, the
pipeline's own access-token gate in `makeAPIRequest` also fails before any
request is sent whenever the token is empty. -/
theorem dataOps_notAuthenticated_no_request :
    (∀ (op : Op) (c : Client) (rs : List Nat) (transport : List TransportEvent),
      c.authenticated = false →
      runOp c rs op transport =
        ⟨[], Except.error ApiError.errNotAuthenticated, c⟩)
    ∧ (∀ (c : Client) (rs : List Nat) (endpoint : String) (params : Params)
        (transport : List TransportEvent),
      c.accessToken = "" →
      makeAPIRequest c rs endpoint params transport =
        ⟨[], Except.error ApiError.notAuthPlain, c⟩) := by
  constructor
  · intro op c rs transport h
    cases op <;>
      simp [runOp, GetSubreddit, GetPost, GetUser, Search, GetComments,
        GetMoreComments, h]
  · intro c rs endpoint params transport h
    simp [makeAPIRequest, h]

/-- Witness for C1: a fresh client refuses a subreddit fetch without
sending anything. -/
theorem dataOps_notAuthenticated_no_request_witness :
    GetSubreddit (NewClient "d" "u") [] "golang" "hot" [] =
      ⟨[], Except.error ApiError.errNotAuthenticated, NewClient "d" "u"⟩ :=
  dataOps_notAuthenticated_no_request.1 (Op.getSubreddit "golang" "hot")
    (NewClient "d" "u") [] [] rfl

/-- C5: the rate budget starts at the assumed full value 100; a budget
strictly above the threshold is decremented by exactly one, a budget at or
below it resets to 100 after the decrement, and consequently any number of
`updateRateLimit` steps from a fresh client leaves the budget at least 10
(in particular never negative). -/
theorem rateBudget_spec :
    (∀ deviceID userAgent, (NewClient deviceID userAgent).rateLimit = 100)
    ∧ (∀ r : Int, 10 < r → updateRateLimit r = r - 1)
    ∧ (∀ r : Int, r ≤ 10 → updateRateLimit r = 100)
    ∧ (∀ n : Nat, 10 ≤ updateRateLimit^[n] (100 : Int)) := by
  refine ⟨fun _ _ => rfl, ?_, ?_, ?_⟩
  · intro r h
    unfold updateRateLimit
    rw [if_neg (by omega)]
  · intro r h
    unfold updateRateLimit
    rw [if_pos (by omega)]
  · intro n
    induction n with
    | zero => simp
    | succ n ih =>
      rw [Function.iterate_succ_apply']
      exact updateRateLimit_ge _ ih

/-- Witness for C5 at concrete budgets and step counts. -/
theorem rateBudget_spec_witness :
    (NewClient "d" "u").rateLimit = 100
    ∧ updateRateLimit 50 = 49
    ∧ updateRateLimit 10 = 100
    ∧ 10 ≤ updateRateLimit^[95] (100 : Int) :=
  ⟨rateBudget_spec.1 "d" "u",
   rateBudget_spec.2.1 50 (by omega),
   rateBudget_spec.2.2.1 10 (by omega),
   rateBudget_spec.2.2.2 95⟩

/-- C6: a transport-level failure on a data fetch surfaces immediately as
the transport error: exactly the one failed request was issued, the client
state (in particular the rate budget) is untouched, and no decompression,
status check, restriction check or retry happens — the outcome is fixed no
matter what further transport events would have been available. -/
theorem transport_error_immediate (c : Client) (rs : List Nat)
    (endpoint : String) (params : Params) (m : String)
    (rest : List TransportEvent) (hA : c.accessToken ≠ "") :
    makeAPIRequest c rs endpoint params (TransportEvent.err m :: rest) =
      ⟨[buildDataRequest c rs endpoint params],
       Except.error (ApiError.transportErr "API request failed"), c⟩ := by
  simp [makeAPIRequest, hA]

/-- Witness for C6: a concrete failed send. -/
theorem transport_error_immediate_witness :
    makeAPIRequest clientC [] "/r/golang/hot.json" []
        [TransportEvent.err "context canceled"] =
      ⟨[buildDataRequest clientC [] "/r/golang/hot.json" []],
       Except.error (ApiError.transportErr "API request failed"), clientC⟩ :=
  transport_error_immediate clientC [] "/r/golang/hot.json" []
    "context canceled" [] (by simp [clientC])

/-- C2: when the first response is a 200 whose body is a `gated` or
`quarantined` restriction signal, exactly two requests go to the
transport; the second is the original request with only the fixed consent
cookie header added, and the call succeeds with the second response's
decompressed body — for every second response whose body reads, with no
restriction re-check applied to it. -/
theorem restricted_retry_two_requests (c : Client) (rs : List Nat)
    (endpoint : String) (params : Params) (resp1 resp2 : HttpResp)
    (rest : List TransportEvent) (body1 body2 : RawContent) (r : String)
    (hA : c.accessToken ≠ "")
    (h1 : resp1.status = 200)
    (hb1 : readResponseBody resp1 = some body1)
    (hr : restrictionReason body1 = some r)
    (hrr : r = "gated" ∨ r = "quarantined")
    (hb2 : readResponseBody resp2 = some body2) :
    makeAPIRequest c rs endpoint params
        (TransportEvent.ok resp1 :: TransportEvent.ok resp2 :: rest) =
      ⟨[buildDataRequest c rs endpoint params,
        addConsentCookie (buildDataRequest c rs endpoint params)],
       Except.ok body2, recordRate c resp1⟩ := by
  simp [makeAPIRequest, hA, hb1, h1, hr, handleRestrictedContent, hrr, hb2]

/-- Witness for C2: a quarantined signal followed by an ordinary listing
body yields the second body after two requests. -/
theorem restricted_retry_two_requests_witness :
    makeAPIRequest clientC [] "/r/golang/hot.json" []
        [TransportEvent.ok (respReasonC "quarantined"), TransportEvent.ok respOkC] =
      ⟨[buildDataRequest clientC [] "/r/golang/hot.json" [],
        addConsentCookie (buildDataRequest clientC [] "/r/golang/hot.json" [])],
       Except.ok listingBodyC, recordRate clientC (respReasonC "quarantined")⟩ :=
  restricted_retry_two_requests clientC [] "/r/golang/hot.json" []
    (respReasonC "quarantined") respOkC []
    (RawContent.json (Json.obj [("reason", Json.str "quarantined")]))
    listingBodyC "quarantined" (by simp [clientC]) rfl rfl rfl (Or.inr rfl) rfl

/-- C3: a 200 response whose body carries any non-empty restriction reason
other than `gated`/`quarantined` (including `private`) fails with the
restricted-content error naming that reason, after exactly one transport
request and with no retry. -/
theorem restricted_terminal_one_request (c : Client) (rs : List Nat)
    (endpoint : String) (params : Params) (resp1 : HttpResp)
    (rest : List TransportEvent) (body1 : RawContent) (r : String)
    (hA : c.accessToken ≠ "")
    (h1 : resp1.status = 200)
    (hb1 : readResponseBody resp1 = some body1)
    (hr : restrictionReason body1 = some r)
    (hg : r ≠ "gated") (hq : r ≠ "quarantined") :
    makeAPIRequest c rs endpoint params (TransportEvent.ok resp1 :: rest) =
      ⟨[buildDataRequest c rs endpoint params],
       Except.error (ApiError.restricted r
         (if r = "private" then "content is private and cannot be accessed"
          else "unknown content restriction: " ++ r)),
       recordRate c resp1⟩ := by
  by_cases hp : r = "private"
  · subst hp
    simp [makeAPIRequest, if_neg hA, hb1, h1, hr, handleRestrictedContent]
  · simp [makeAPIRequest, if_neg hA, hb1, h1, hr, handleRestrictedContent,
      hg, hq, hp]

/-- Witness for C3: a private subreddit fails after one request. -/
theorem restricted_terminal_one_request_witness :
    makeAPIRequest clientC [] "/r/golang/hot.json" []
        [TransportEvent.ok (respReasonC "private")] =
      ⟨[buildDataRequest clientC [] "/r/golang/hot.json" []],
       Except.error (ApiError.restricted "private"
         "content is private and cannot be accessed"),
       recordRate clientC (respReasonC "private")⟩ := by
  have h := restricted_terminal_one_request clientC [] "/r/golang/hot.json" []
    (respReasonC "private") []
    (RawContent.json (Json.obj [("reason", Json.str "private")]))
    "private" (by simp [clientC]) rfl rfl rfl
    (by simp) (by simp)
  simpa using h

/-- C9 (implicit): the HTTP status of the consent-cookie retry response is
never examined — even a non-200 retry status returns that response's body
to the caller as the success value, with no status error raised. -/
theorem retry_status_unchecked (c : Client) (rs : List Nat)
    (endpoint : String) (params : Params) (resp1 resp2 : HttpResp)
    (rest : List TransportEvent) (body1 body2 : RawContent) (r : String)
    (hA : c.accessToken ≠ "")
    (h1 : resp1.status = 200)
    (hb1 : readResponseBody resp1 = some body1)
    (hr : restrictionReason body1 = some r)
    (hrr : r = "gated" ∨ r = "quarantined")
    (hb2 : readResponseBody resp2 = some body2)
    (_hs2 : resp2.status ≠ 200) :
    (makeAPIRequest c rs endpoint params
        (TransportEvent.ok resp1 :: TransportEvent.ok resp2 :: rest)).outcome =
      Except.ok body2 := by
  simp [makeAPIRequest, hA, hb1, h1, hr, handleRestrictedContent, hrr, hb2]

/-- Witness for C9: a 503 retry response still succeeds with its body. -/
theorem retry_status_unchecked_witness :
    (makeAPIRequest clientC [] "/r/golang/hot.json" []
        [TransportEvent.ok (respReasonC "gated"), TransportEvent.ok resp503C]).outcome =
      Except.ok listingBodyC :=
  retry_status_unchecked clientC [] "/r/golang/hot.json" []
    (respReasonC "gated") resp503C []
    (RawContent.json (Json.obj [("reason", Json.str "gated")]))
    listingBodyC "gated" (by simp [clientC]) rfl rfl rfl (Or.inl rfl) rfl
    (by simp [resp503C])

/-- C4: Authenticate fails with an authentication error on transport
failure and on any non-200 status, leaving the whole client state —
in particular `accessToken`, `loid` and `session` — unchanged on every
failure path (the remaining failure path, a 200 with an undecodable body,
also leaves the state unchanged); on a 200 response with a decodable OAuth
body it stores the decoded `access_token` and the `x-reddit-loid` /
`x-reddit-session` response headers. -/
theorem authenticate_state_and_errors :
    (∀ (c : Client) (rs : List Nat) (qos m : String)
        (rest : List TransportEvent),
      Authenticate c rs qos (TransportEvent.err m :: rest) =
        ⟨[authRequest c rs qos],
         Except.error (ApiError.authErr "authentication request failed"), c⟩)
    ∧ (∀ (c : Client) (rs : List Nat) (qos : String) (resp : HttpResp)
        (rest : List TransportEvent),
      resp.status ≠ 200 →
      Authenticate c rs qos (TransportEvent.ok resp :: rest) =
        ⟨[authRequest c rs qos],
         Except.error (ApiError.authErr "authentication failed with status"), c⟩)
    ∧ (∀ (c : Client) (rs : List Nat) (qos : String) (resp : HttpResp)
        (rest : List TransportEvent) (o : OAuthResponse),
      resp.status = 200 →
      decodeOAuth (rawOf resp.body) = some o →
      Authenticate c rs qos (TransportEvent.ok resp :: rest) =
        ⟨[authRequest c rs qos], Except.ok (),
         { c with
           authenticated := true
           accessToken := o.accessToken
           loid := headerGet resp.headers "x-reddit-loid"
           session := headerGet resp.headers "x-reddit-session" }⟩)
    ∧ (∀ (c : Client) (rs : List Nat) (qos : String) (resp : HttpResp)
        (rest : List TransportEvent),
      resp.status = 200 →
      decodeOAuth (rawOf resp.body) = none →
      (Authenticate c rs qos (TransportEvent.ok resp :: rest)).client = c) := by
  refine ⟨fun c rs qos m rest => rfl, ?_, ?_, ?_⟩
  · intro c rs qos resp rest hs
    simp [Authenticate, hs]
  · intro c rs qos resp rest o hs ho
    simp [Authenticate, hs, ho]
  · intro c rs qos resp rest hs ho
    simp [Authenticate, hs, ho]

/-- Witness for C4: a concrete network failure, a concrete 401, and a
concrete successful token exchange. -/
theorem authenticate_state_and_errors_witness :
    (Authenticate (NewClient "d" "u") [] "1.5" [TransportEvent.err "dial"] =
      ⟨[authRequest (NewClient "d" "u") [] "1.5"],
       Except.error (ApiError.authErr "authentication request failed"),
       NewClient "d" "u"⟩)
    ∧ (Authenticate (NewClient "d" "u") [] "1.5"
          [TransportEvent.ok
            { status := 401, headers := [],
              body := WireBody.plain (RawContent.text "Unauthorized") }] =
        ⟨[authRequest (NewClient "d" "u") [] "1.5"],
         Except.error (ApiError.authErr "authentication failed with status"),
         NewClient "d" "u"⟩)
    ∧ (Authenticate (NewClient "d" "u") [] "1.5"
          [TransportEvent.ok
            { status := 200
              headers := [("x-reddit-loid", "L"), ("x-reddit-session", "S")]
              body := WireBody.plain (RawContent.json
                (Json.obj [("access_token", Json.str "T")])) }] =
        ⟨[authRequest (NewClient "d" "u") [] "1.5"], Except.ok (),
         { NewClient "d" "u" with
           authenticated := true, accessToken := "T",
           loid := "L", session := "S" }⟩)
    ∧ ((Authenticate (NewClient "d" "u") [] "1.5"
          [TransportEvent.ok
            { status := 200, headers := [],
              body := WireBody.plain (RawContent.text "oops") }]).client =
        NewClient "d" "u") :=
  ⟨authenticate_state_and_errors.1 (NewClient "d" "u") [] "1.5" "dial" [],
   authenticate_state_and_errors.2.1 (NewClient "d" "u") [] "1.5" _ []
     (by simp),
   authenticate_state_and_errors.2.2.1 (NewClient "d" "u") [] "1.5" _ []
     ⟨"T", "", 0, []⟩ rfl rfl,
   authenticate_state_and_errors.2.2.2 (NewClient "d" "u") [] "1.5" _ []
     rfl rfl⟩

/-- C10 (implicit): a 200 authentication response whose body does not
decode as the OAuth shape fails with a decode error and leaves the client
state — in particular `accessToken`, `loid` and `session` — unchanged. -/
theorem authenticate_decode_failure_no_mutation (c : Client) (rs : List Nat)
    (qos : String) (resp : HttpResp) (rest : List TransportEvent)
    (hs : resp.status = 200)
    (ho : decodeOAuth (rawOf resp.body) = none) :
    Authenticate c rs qos (TransportEvent.ok resp :: rest) =
      ⟨[authRequest c rs qos],
       Except.error (ApiError.decodeErr "failed to decode OAuth response"), c⟩ := by
  simp [Authenticate, hs, ho]

/-- Witness for C10: a 200 response with a non-JSON body. -/
theorem authenticate_decode_failure_no_mutation_witness :
    Authenticate (NewClient "d" "u") [] "1.5"
        [TransportEvent.ok
          { status := 200, headers := [],
            body := WireBody.plain (RawContent.text "not json") }] =
      ⟨[authRequest (NewClient "d" "u") [] "1.5"],
       Except.error (ApiError.decodeErr "failed to decode OAuth response"),
       NewClient "d" "u"⟩ :=
  authenticate_decode_failure_no_mutation (NewClient "d" "u") [] "1.5" _ []
    rfl rfl

/-- Counterexample for C7: comment-listing children are not decoded as a
tagged union dispatched on `kind`.  The source's `CommentChild` decoding
keeps `data` untyped and accepts a `t1` child whose `data` is not even an
object (so in particular is no Comment), while the `kind`-dispatched
decoder that the claim describes rejects the same input. -/
theorem commentChild_no_kind_dispatch :
    decodeCommentChild
        (Json.obj [("kind", Json.str "t1"), ("data", Json.num 5)]) =
      some ⟨"t1", Json.num 5⟩
    ∧ decodeCommentNodeSpec 100
        (Json.obj [("kind", Json.str "t1"), ("data", Json.num 5)]) = none :=
  ⟨rfl, rfl⟩

/-- C7 amended: a comment-listing child decodes with the `kind`
discriminator typed as a string while the `data` payload is retained as an
untyped dynamic JSON value for every kind — no dispatch on `kind` into
typed Comment / MorePlaceholder structures occurs.  Because `data` (and
hence a `t1` comment's `replies` inside it) is kept verbatim, both the
empty-string sentinel and a nested listing of arbitrary depth are
accepted unchanged. -/
theorem commentChild_untyped_decode :
    ∀ (k : String) (d : Json),
      decodeCommentChild (Json.obj [("kind", Json.str k), ("data", d)]) =
        some ⟨k, d⟩ :=
  fun _ _ => rfl

/-- C8: header application order is randomized while the applied set is
fixed: for every header map with (pairwise distinct) keys, every random
stream applies exactly a permutation of the original key/value pairs, and
whenever there are at least two headers there exist random streams
producing different insertion orders; the authentication and data header
maps of the source both satisfy the premises. -/
theorem headers_shuffled_same_set_varying_order :
    (∀ (headers : List (String × String)) (rs : List Nat),
      (headers.map Prod.fst).Nodup → (shuffleHeaders rs headers).Perm headers)
    ∧ (∀ headers : List (String × String),
      (headers.map Prod.fst).Nodup → 2 ≤ headers.length →
      ∃ rs1 rs2 : List Nat,
        shuffleHeaders rs1 headers ≠ shuffleHeaders rs2 headers)
    ∧ (∀ (c : Client) (qos : String),
      ((authHeaders c qos).map Prod.fst).Nodup ∧ 2 ≤ (authHeaders c qos).length)
    ∧ (∀ c : Client,
      ((dataHeaders c).map Prod.fst).Nodup ∧ 2 ≤ (dataHeaders c).length) := by
  refine ⟨fun headers rs hnd => shuffleHeaders_perm rs headers hnd, ?_, ?_, ?_⟩
  · intro headers hnd hlen
    match headers, hlen with
    | p1 :: p2 :: t, _ =>
      refine ⟨[], [1], ?_⟩
      have hA : shuffleHeaders [] (p1 :: p2 :: t) = p1 :: p2 :: t := by
        unfold shuffleHeaders
        rw [shuffleSelect_nil, List.map_map]
        exact map_lookup_self hnd
      have hkey : p1.1 ≠ p2.1 := by
        simp only [List.map_cons, List.nodup_cons] at hnd
        intro he
        exact hnd.1 (List.mem_cons.mpr (Or.inl he))
      have hm : 1 % (t.length + 2) = 1 := Nat.mod_eq_of_lt (by omega)
      have hB : shuffleHeaders [1] (p1 :: p2 :: t) =
          (p2.1, (((p1 :: p2 :: t).lookup p2.1)).getD "") ::
            ((p1.1 :: t.map Prod.fst).map
              (fun k => (k, (((p1 :: p2 :: t).lookup k)).getD ""))) := by
        unfold shuffleHeaders
        simp [shuffleSelect, shuffleSelect_nil, hm, List.eraseIdx]
      rw [hA, hB]
      intro he
      exact hkey (congrArg (fun l => (l.headD p1).1) he)
  · intro c qos
    constructor
    · have hk : (authHeaders c qos).map Prod.fst =
          ["Authorization", "User-Agent", "X-Reddit-Device-Id",
           "client-vendor-id", "Content-Type", "x-reddit-retry",
           "x-reddit-compression", "x-reddit-qos",
           "x-reddit-media-codecs"] := rfl
      rw [hk]
      decide
    · simp [authHeaders]
  · intro c
    constructor
    · have hk : (dataHeaders c).map Prod.fst =
          ["Authorization", "User-Agent", "x-reddit-loid",
           "x-reddit-session", "Accept-Encoding"] := rfl
      rw [hk]
      decide
    · simp [dataHeaders]

/-- Witness for C8: the concrete data-header map is shuffled to the same
set of pairs, and two streams giving different orders exist. -/
theorem headers_shuffled_same_set_varying_order_witness :
    (shuffleHeaders [] (dataHeaders clientC)).Perm (dataHeaders clientC)
    ∧ ∃ rs1 rs2 : List Nat,
        shuffleHeaders rs1 (dataHeaders clientC) ≠
          shuffleHeaders rs2 (dataHeaders clientC) :=
  ⟨headers_shuffled_same_set_varying_order.1 (dataHeaders clientC) []
      (by decide),
   headers_shuffled_same_set_varying_order.2.1 (dataHeaders clientC)
      (by decide) (by decide)⟩

end Grapeddit
